import Mathlib

/-!
Verification of the Merlin Agent Job Service (`src/pkg/services/job/job.go`)
against its natural-language specification.

The Go source is shallowly embedded: pure helpers become Lean functions,
the mutable service state (job repository, agent logs, broadcast messages,
file system) becomes an explicit state record threaded through the
operations, and fallible Go code returns `Option`/`Except`-style results.
Go runtime panics (out-of-range indexing, failed type assertions) are a
distinguished error outcome.  External collaborators that are not part of
this repository (the agent directory, `crypto/sha256`, the file system)
are parameters of the model.  The job repository (`pkg/jobs/memory`) and
the `jobs.Info` record are code of the repository that is not under
`src/`; they are modelled from the specification (§3, §4.2) and marked as
such in their doc comments.
-/

set_option maxHeartbeats 4000000

namespace Merlin

/-! ## Go string and byte helpers

Go strings are byte sequences; we model them as Lean `String`s under a
byte-per-`Char` convention (`rawStr`/`strBytes` convert between a byte
list and such a string; all bytes are < 256 < 0xD800, so the encoding is
injective and `Char.ofNat` is exact on it). -/

/-- Go `strings.Join(args, " ")`. -/
def joinSpace (l : List String) : String := String.intercalate " " l

/-- The truncation in `buildJob`: `if len(args) > 30 { args = args[:30] + "..." }`.
Go counts bytes; for the ASCII summaries involved this agrees with
`String.length`. -/
def truncate30 (s : String) : String :=
  if s.length > 30 then s.take 30 ++ "..." else s

/-- The bytes of a Go string under the byte-per-char model. -/
def strBytes (s : String) : List Nat := s.data.map Char.toNat

/-- Go `fmt.Sprintf("%s", b)` for a byte slice `b`: the raw bytes as a
string. -/
def rawStr (bs : List Nat) : String := String.mk (bs.map Char.ofNat)

/-- A lowercase hexadecimal digit. -/
def hexDigit (n : Nat) : Char := "0123456789abcdef".data.getD n '0'

/-- Go `fmt.Sprintf("%x", s)`: lowercase hex of the bytes. -/
def hexEncode (bs : List Nat) : String :=
  String.mk (bs.foldr (fun b acc => hexDigit (b / 16 % 16) :: hexDigit (b % 16) :: acc) [])

/-- The standard base64 alphabet used by Go `encoding/base64.StdEncoding`. -/
def b64Alphabet : List Char :=
  "ABCDEFGHIJKLMNOPQRSTUVWXYZabcdefghijklmnopqrstuvwxyz0123456789+/".data

/-- The base64 character of a sextet value. -/
def b64Char (n : Nat) : Char := b64Alphabet.getD n 'A'

/-- Go `base64.StdEncoding.EncodeToString`: three bytes per four characters,
`=`-padded. -/
def base64Encode : List Nat → String
  | [] => ""
  | [a] => String.mk [b64Char (a / 4), b64Char (a % 4 * 16), '=', '=']
  | [a, b] => String.mk [b64Char (a / 4), b64Char (a % 4 * 16 + b / 16), b64Char (b % 16 * 4), '=']
  | a :: b :: c :: rest =>
    String.mk [b64Char (a / 4), b64Char (a % 4 * 16 + b / 16),
               b64Char (b % 16 * 4 + c / 64), b64Char (c % 64)] ++ base64Encode rest

/-- Index of a character in the base64 alphabet. -/
def b64ValAux : List Char → Nat → Char → Option Nat
  | [], _, _ => none
  | x :: rest, k, c => if x = c then some k else b64ValAux rest (k + 1) c

/-- The sextet value of a base64 character, `none` for characters outside the
alphabet (including `=`). -/
def b64Val (c : Char) : Option Nat := b64ValAux b64Alphabet 0 c

/-- Go `base64.StdEncoding.DecodeString` on the character list: input length
must be a multiple of four, `=` may appear only as final-group padding, and
(as in the non-strict Go decoder) unused trailing bits are dropped. -/
def base64DecodeChars : List Char → Option (List Nat)
  | [] => some []
  | c1 :: c2 :: c3 :: c4 :: rest =>
    if c4 = '=' then
      if rest ≠ [] then none
      else match b64Val c1, b64Val c2 with
        | some v1, some v2 =>
          if c3 = '=' then some [v1 * 4 + v2 / 16]
          else match b64Val c3 with
            | some v3 => some [v1 * 4 + v2 / 16, v2 % 16 * 16 + v3 / 4]
            | none => none
        | _, _ => none
    else
      match b64Val c1, b64Val c2, b64Val c3, b64Val c4 with
      | some v1, some v2, some v3, some v4 =>
        (base64DecodeChars rest).map
          (fun bs => (v1 * 4 + v2 / 16) :: (v2 % 16 * 16 + v3 / 4) :: (v3 % 4 * 64 + v4) :: bs)
      | _, _, _, _ => none
  | _ => none

/-- Go `base64.StdEncoding.DecodeString`. -/
def base64Decode (s : String) : Option (List Nat) := base64DecodeChars s.data

/-- The value of a decimal digit character. -/
def decDigit (c : Char) : Option Nat :=
  if '0' ≤ c ∧ c ≤ '9' then some (c.toNat - '0'.toNat) else none

/-- Accumulate a decimal digit string. -/
def digitsValAux : List Char → Nat → Option Nat
  | [], acc => some acc
  | c :: rest, acc =>
    match decDigit c with
    | some d => digitsValAux rest (acc * 10 + d)
    | none => none

/-- Go `strconv.Atoi`: optional sign, non-empty digit string, 64-bit range. -/
def atoi (s : String) : Option Int :=
  match s.data with
  | [] => none
  | '-' :: rest =>
    if rest = [] then none
    else (digitsValAux rest 0).bind (fun n => if n ≤ 2 ^ 63 then some (-(n : Int)) else none)
  | '+' :: rest =>
    if rest = [] then none
    else (digitsValAux rest 0).bind (fun n => if n < 2 ^ 63 then some ((n : Int)) else none)
  | l =>
    (digitsValAux l 0).bind (fun n => if n < 2 ^ 63 then some ((n : Int)) else none)

/-- Go `filepath.Join` of two components (Unix separators, as in the
deployment the spec describes). -/
def pathJoin (a b : String) : String := if a = "" then b else a ++ "/" ++ b

/-- The file part of Go `filepath.Split`: everything after the final `/`. -/
def splitBase (s : String) : String := (s.splitOn "/").foldl (fun _ x => x) ""

/-- Strip trailing `/` characters. -/
def dropTrailingSlashes (s : String) : String :=
  String.mk ((s.data.reverse.dropWhile (fun c => c = '/')).reverse)

/-- Go `filepath.Base`. -/
def baseGo (s : String) : String :=
  if s = "" then "." else
    let t := dropTrailingSlashes s
    if t = "" then "/" else splitBase t

/-! ## The job payload model (§4.1)

`jobs.Job` and its payload types live in `pkg/jobs`, outside `src/`; the
shapes below follow the specification's payload table and the uses in
`src/pkg/services/job/job.go`.  Agent identifiers and tokens are 128-bit
UUIDs; we model them as `Nat` with `0` for `uuid.Nil` and the all-ones
value for the broadcast identifier. -/

/-- `uuid.Nil`, the zero UUID. -/
def nilUUID : Nat := 0

/-- The broadcast identifier `ffffffff-ffff-ffff-ffff-ffffffffffff`
(all-ones 128-bit value).  The source compares its string spelling; for
valid UUID values the string comparison agrees with value comparison. -/
def broadcastUUID : Nat := 2 ^ 128 - 1

inductive JobType
  | CONTROL | SHELLCODE | FILETRANSFER | MODULE | CMD | NATIVE | RESULT | AGENTINFO | SOCKS
deriving DecidableEq

/-- `jobs.Command{Command, Args}`. -/
structure Command where
  command : String
  args : List String
deriving DecidableEq

/-- `jobs.FileTransfer{FileLocation, FileBlob, IsDownload}`. -/
structure FileTransfer where
  fileLocation : String
  fileBlob : String
  isDownload : Bool
deriving DecidableEq

/-- `jobs.Shellcode{Method, Bytes, PID}`. -/
structure Shellcode where
  method : String
  bytes : String
  pid : Nat
deriving DecidableEq

/-- `jobs.Socks{ID, Index, Data, Close}`. -/
structure Socks where
  id : String
  index : Nat
  data : List Nat
  close : Bool
deriving DecidableEq

/-- `jobs.Results{Stdout, Stderr}`. -/
structure Results where
  stdout : String
  stderr : String
deriving DecidableEq

/-- The tagged payload union; `agentInfoP` keeps an opaque tag for the
`messages.AgentInfo` records the dispatcher forwards unchanged. -/
inductive Payload
  | noPayload
  | command (c : Command)
  | fileTransfer (f : FileTransfer)
  | shellcode (s : Shellcode)
  | socksP (s : Socks)
  | results (r : Results)
  | agentInfoP (tag : Nat)
deriving DecidableEq

/-- `jobs.Job`: the unit of work sent to an agent. -/
structure Job where
  id : String
  agentID : Nat
  token : Nat
  jtype : JobType
  payload : Payload
deriving DecidableEq

/-- Modelled from the spec: the `Status` finite state of §3 plus the
`RETURNED` value the source's table rendering also consumes. -/
inductive Status
  | CREATED | SENT | RETURNED | ACTIVE | COMPLETE | CANCELED
deriving DecidableEq

/-- Modelled from the spec: `jobs.Info` (`pkg/jobs`, not under `src/`), the
server-side tracking record keyed by `id` with agent, type and command
strings, token, status and timestamps. -/
structure Info where
  id : String
  agentID : Nat
  jtype : String
  command : String
  token : Nat
  status : Status
  created : Nat
  sent : Nat
  completed : Nat
deriving DecidableEq

/-- `jobInfo.Complete()`: status `COMPLETE`, completion time stamped. -/
def Info.complete (i : Info) (now : Nat) : Info :=
  { i with status := .COMPLETE, completed := now }

/-- `jobInfo.Active()`: status `ACTIVE`. -/
def Info.active (i : Info) : Info := { i with status := .ACTIVE }

/-! ## The job repository (§4.2)

Modelled from the spec: the in-memory repository `pkg/jobs/memory` is not
under `src/`.  `add` inserts a job and its info and fails if the info id is
already present; `get_info` looks the info up by id; `update_info` replaces
by id and fails when the id is unknown.  The queue is FIFO per agent; a
single insertion-ordered list whose entries carry their agent id realizes
that. -/

/-- Association-list lookup by info id. -/
def findInfo : List Info → String → Option Info
  | [], _ => none
  | i :: rest, id => if i.id = id then some i else findInfo rest id

structure Repo where
  infos : List Info
  queue : List Job
deriving DecidableEq

/-- Modelled from the spec: `get_info(id) → JobInfo | NotFound`. -/
def Repo.getInfo (r : Repo) (id : String) : Option Info := findInfo r.infos id

/-- Modelled from the spec: `add(job, info)` inserts both and fails (second
component `false`, no mutation) if `info.id` is already present. -/
def Repo.add (r : Repo) (j : Job) (i : Info) : Repo × Bool :=
  if (r.getInfo i.id).isSome then (r, false)
  else ({ infos := r.infos ++ [i], queue := r.queue ++ [j] }, true)

/-- Modelled from the spec: `update_info(info)` replaces by id and fails if
the id is unknown. -/
def Repo.updateInfo (r : Repo) (i : Info) : Repo × Bool :=
  if (r.getInfo i.id).isSome then
    ({ r with infos := r.infos.map (fun x => if x.id = i.id then i else x) }, true)
  else (r, false)

/-! ## Broadcast messages, service state and environment -/

inductive Level
  | info | note | success | warn | plain
deriving DecidableEq

/-- `messageAPI.UserMessage` (time field folded into the message text the
model computes from the state clock). -/
structure UserMessage where
  level : Level
  message : String
deriving DecidableEq

/-- The observable state the job service threads: the repository, the
per-agent log (`agentService.Log` / `agent.Log` append entries), broadcast
messages, the gated debug prints, the jobs forwarded to `socks.In`, the
agent-info updates forwarded to the agent directory, and the server file
system (`dirs` are the directories that exist, `files` maps a path to its
bytes and permission bits).  `gen` drives fresh UUID/id generation and
`now` is the (constant) reading of the clock. -/
structure St where
  repo : Repo
  logs : List (Nat × String)
  msgs : List UserMessage
  debugLogs : List String
  socksIn : List Job
  agentInfoUpdates : List (Nat × Nat)
  dirs : List String
  files : List (String × List Nat × Nat)
  gen : Nat
  now : Nat
deriving DecidableEq

/-- The external collaborators: the agent directory's known-agent set
(`Agents()`/`Exist`/`Agent`), the `core.Debug` flag, `core.CurrentDir`,
`ioutil.ReadFile` on the server file system used by the Builder, and
`crypto/sha256` as an abstract digest function. -/
structure Env where
  agents : List Nat
  debug : Bool
  cwd : String
  readFile : String → Option (List Nat)
  sha256 : List Nat → List Nat

/-- Fresh info identifiers: `jobs.NewInfo` assigns a fresh textual UUID per
record; the model generates the (non-empty, pairwise distinct) string of
`g + 1` letters for generator value `g`. -/
def idOf (g : Nat) : String := String.mk (List.replicate (g + 1) 'a')

/-- Fresh tokens: never `uuid.Nil`, pairwise distinct. -/
def tokOf (g : Nat) : Nat := g + 1

/-- Modelled from the spec: `jobs.NewInfo(agentID, type, command)` creates a
tracking record with a fresh id and token, status `CREATED` and the
creation time stamped. -/
def newInfo (g : Nat) (agentID : Nat) (jtype command : String) (now : Nat) : Info :=
  { id := idOf g, agentID := agentID, jtype := jtype, command := command,
    token := tokOf g, status := .CREATED, created := now, sent := 0, completed := 0 }

/-- Modelled from the spec: `jobs.String(job.Type)`, the textual job type
recorded in `JobInfo`. -/
def jobsString : JobType → String
  | .CONTROL => "AgentControl"
  | .SHELLCODE => "Shellcode"
  | .FILETRANSFER => "FileTransfer"
  | .MODULE => "AgentModule"
  | .CMD => "AgentCommand"
  | .NATIVE => "Native"
  | .RESULT => "Results"
  | .AGENTINFO => "AgentInfo"
  | .SOCKS => "Socks"

/-- Modelled from the spec: `messages.String(job.Type)`, the textual type
used in log lines and debug prints. -/
def messagesString : JobType → String := jobsString

/-- The error taxonomy of §7 plus the Go runtime panic outcome
(out-of-range slice indexing or a failed type assertion crashes the
process; the model surfaces that as `errPanic`). -/
inductive Err
  | errPanic
  | errArguments
  | errFileRead
  | errUnknownKind
  | errAtoi
  | errUnknownAgent
  | errNoAgents
  | errUnknownJob
  | errJobInvalidAgent
  | errBadToken
  | errAlreadyComplete
  | errAlreadyCanceled
  | errAgentsDirMissing
  | errBlobDecode
  | errWrite
  | errUpdateInfo
deriving DecidableEq

/-! ## The Job Builder (`Service.Add`, §4.3)

`buildPayload` is the big `switch jobType` of `Add` (job.go:74-466): it
selects the payload shape, validates and possibly extends the argument
vector, and reports the job type.  Go slice indexing `jobArgs[i]` panics
when out of range; those paths return `Err.errPanic`. -/

/-- The `Command{name, args}` payload with an empty argument vector. -/
def cmdOnly (name : String) : Payload := .command { command := name, args := [] }

/-- The `Command{name, args}` payload. -/
def cmdWith (name : String) (args : List String) : Payload :=
  .command { command := name, args := args }

/-- The `jobArgs[0]`-named CONTROL payload shared by `changelistener`-style
kinds: `Command{Command: jobArgs[0]}` (panics on an empty vector), with
`Args = jobArgs[1:]` exactly when the guard `cond` on the vector length
holds. -/
def headCmd (jobArgs : List String) (cond : Bool) : Except Err Payload :=
  match jobArgs with
  | [] => .error .errPanic
  | a :: rest => .ok (.command { command := a, args := if cond then rest else [] })

def buildPayload (env : Env) (jobType : String) (jobArgs : List String) :
    Except Err (JobType × Payload × List String) :=
  match jobType with
  | "agentInfo" => .ok (.CONTROL, cmdOnly "agentInfo", jobArgs)
  | "download" =>
    match jobArgs with
    | [] => .error .errPanic
    | loc :: _ =>
      .ok (.FILETRANSFER, .fileTransfer { fileLocation := loc, fileBlob := "", isDownload := false }, jobArgs)
  | "cd" => .ok (.NATIVE, cmdWith "cd" jobArgs, jobArgs)
  | "changelistener" =>
    (headCmd jobArgs (jobArgs.length ≥ 2)).map (fun p => (.CONTROL, p, jobArgs))
  | "CreateProcess" => .ok (.MODULE, cmdWith "CreateProcess" jobArgs, jobArgs)
  | "env" => .ok (.NATIVE, cmdWith "env" jobArgs, jobArgs)
  | "exit" => (headCmd jobArgs false).map (fun p => (.CONTROL, p, jobArgs))
  | "ifconfig" => .ok (.NATIVE, cmdOnly "ifconfig", jobArgs)
  | "initialize" => .ok (.CONTROL, cmdOnly "initialize", jobArgs)
  | "invoke-assembly" =>
    if jobArgs.length < 1 then .error .errArguments
    else .ok (.MODULE, cmdWith "clr" ("invoke-assembly" :: jobArgs), jobArgs)
  | "ja3" => (headCmd jobArgs (jobArgs.length = 2)).map (fun p => (.CONTROL, p, jobArgs))
  | "killdate" => (headCmd jobArgs (jobArgs.length = 2)).map (fun p => (.CONTROL, p, jobArgs))
  | "killprocess" => .ok (.NATIVE, cmdWith "killprocess" jobArgs, jobArgs)
  | "link" => .ok (.MODULE, cmdWith "link" jobArgs, jobArgs)
  | "listener" => .ok (.MODULE, cmdWith "listener" jobArgs, jobArgs)
  | "list-assemblies" => .ok (.MODULE, cmdWith "clr" ["list-assemblies"], jobArgs)
  | "load-assembly" =>
    match jobArgs with
    | [] => .error .errArguments
    | a0 :: restArgs =>
      match env.readFile a0 with
      | none => .error .errFileRead
      | some assembly =>
        let name := match restArgs with
          | [] => baseGo a0
          | n :: _ => n
        let jobArgs2 := (a0 :: restArgs) ++ [rawStr (env.sha256 assembly)]
        .ok (.MODULE, cmdWith "clr" ["load-assembly", base64Encode assembly, name], jobArgs2)
  | "load-clr" =>
    if jobArgs.length < 1 then .error .errArguments
    else .ok (.MODULE, cmdWith "clr" ("load-clr" :: jobArgs), jobArgs)
  | "ls" =>
    .ok (.NATIVE, .command { command := "ls", args := if jobArgs.length > 0 then jobArgs else ["./"] }, jobArgs)
  | "maxretry" => (headCmd jobArgs (jobArgs.length = 2)).map (fun p => (.CONTROL, p, jobArgs))
  | "memory" => .ok (.MODULE, cmdWith "memory" jobArgs, jobArgs)
  | "memfd" =>
    match jobArgs with
    | [] => .error .errArguments
    | a0 :: restArgs =>
      match env.readFile a0 with
      | none => .error .errFileRead
      | some executable =>
        -- the memfd case computes the SHA-256 of the file but discards it
        .ok (.MODULE, cmdWith "memfd" (base64Encode executable :: restArgs), jobArgs)
  | "Minidump" => .ok (.MODULE, cmdWith "Minidump" jobArgs, jobArgs)
  | "netstat" => .ok (.MODULE, cmdWith "netstat" jobArgs, jobArgs)
  | "nslookup" => .ok (.NATIVE, cmdWith "nslookup" jobArgs, jobArgs)
  | "padding" => (headCmd jobArgs (jobArgs.length = 2)).map (fun p => (.CONTROL, p, jobArgs))
  | "pipes" => .ok (.MODULE, cmdOnly "pipes", jobArgs)
  | "ps" => .ok (.MODULE, cmdOnly "ps", jobArgs)
  | "pwd" => (headCmd jobArgs false).map (fun p => (.NATIVE, p, jobArgs))
  | "rm" =>
    match jobArgs with
    | [] => .error .errPanic
    | a0 :: _ => .ok (.NATIVE, cmdWith "rm" [a0], jobArgs)
  | "run" => (headCmd jobArgs (jobArgs.length > 1)).map (fun p => (.CMD, p, jobArgs))
  | "exec" => (headCmd jobArgs (jobArgs.length > 1)).map (fun p => (.CMD, p, jobArgs))
  | "runas" => .ok (.MODULE, cmdWith "runas" jobArgs, jobArgs)
  | "sdelete" => .ok (.NATIVE, cmdWith "sdelete" jobArgs, jobArgs)
  | "shell" => .ok (.CMD, cmdWith "shell" jobArgs, jobArgs)
  | "shellcode" =>
    match jobArgs with
    | [] => .error .errPanic
    | method :: rest =>
      if method = "self" then
        match rest with
        | [] => .error .errPanic
        | b :: _ =>
          .ok (.SHELLCODE, .shellcode { method := method, bytes := b, pid := 0 }, jobArgs)
      else
        if method = "remote" ∨ method = "rtlcreateuserthread" ∨ method = "userapc" then
          match rest with
          | [] => .error .errPanic
          | pidStr :: rest2 =>
            match atoi pidStr with
            | none => .error .errAtoi
            | some i =>
              match rest2 with
              | [] => .error .errPanic
              | b :: _ =>
                .ok (.SHELLCODE,
                     .shellcode { method := method, bytes := b, pid := (Int.emod i (2 ^ 32)).toNat },
                     jobArgs)
        else .ok (.SHELLCODE, .shellcode { method := method, bytes := "", pid := 0 }, jobArgs)
  | "skew" => (headCmd jobArgs (jobArgs.length = 2)).map (fun p => (.CONTROL, p, jobArgs))
  | "sleep" => (headCmd jobArgs (jobArgs.length = 2)).map (fun p => (.CONTROL, p, jobArgs))
  | "ssh" => .ok (.MODULE, cmdWith "ssh" jobArgs, jobArgs)
  | "token" => .ok (.MODULE, cmdWith "token" jobArgs, jobArgs)
  | "touch" => .ok (.NATIVE, cmdWith "touch" jobArgs, jobArgs)
  | "unlink" => .ok (.MODULE, cmdWith "unlink" jobArgs, jobArgs)
  | "upload" =>
    if jobArgs.length < 2 then .error .errArguments
    else
      match env.readFile (jobArgs.getD 0 "") with
      | none => .error .errFileRead
      | some uploadFile =>
        let raw := rawStr (env.sha256 uploadFile)
        let args1 := if jobArgs.length > 2 then jobArgs.set 2 raw else jobArgs ++ [raw]
        let size := toString uploadFile.length
        let args2 := if args1.length > 3 then args1.set 3 size else args1 ++ [size]
        .ok (.FILETRANSFER,
             .fileTransfer { fileLocation := jobArgs.getD 1 "", fileBlob := base64Encode uploadFile,
                             isDownload := true },
             args2)
  | "uptime" => .ok (.MODULE, cmdOnly "uptime", jobArgs)
  | _ => .error .errUnknownKind

/-! ## `buildJob` (job.go:503-600) -/

/-- The summary and argument text of a `Command` for the CONTROL / MODULE /
NATIVE case: `Sprintf("%s %s", cmd.Command, truncate(join(cmd.Args)))`. -/
def cmdSummary (cmd : Command) : String :=
  cmd.command ++ " " ++ truncate30 (joinSpace cmd.args)

/-- Model of Go `%+v` on a payload value; no claim inspects this text. -/
def payloadDesc : Payload → String
  | _ => "payload"

/-- The `command` summary of `buildJob`'s `switch job.Type` together with the
agent-log lines it emits; `none` is a Go panic (a failed type assertion
`job.Payload.(T)`, `cmd.Args[0]` on an empty argument list, or `jobArgs[3]`
under the `len(jobArgs) > 2` guard). -/
def summaryCore (job : Job) (jobArgs : List String) : Option (String × List String) :=
  match job.jtype, job.payload with
  | .CONTROL, .command cmd => some (cmdSummary cmd, [])
  | .NATIVE, .command cmd => some (cmdSummary cmd, [])
  | .MODULE, .command cmd =>
    if cmd.command.toLower = "clr" then
      match cmd.args with
      | [] => none
      | a0 :: _ =>
        if a0.toLower = "load-assembly" ∧ jobArgs.length > 2 then
          some (cmdSummary cmd,
            ["loading assembly from " ++ jobArgs.getD 0 "" ++ " with a SHA256: "
              ++ jobArgs.getD 2 "" ++ " to agent"])
        else some (cmdSummary cmd, [])
    else some (cmdSummary cmd, [])
  | .CONTROL, _ => none
  | .NATIVE, _ => none
  | .MODULE, _ => none
  | .CMD, .command cmd =>
    let args := truncate30 (joinSpace cmd.args)
    if cmd.command.toLower = "shell" then some ((cmd.command ++ " " ++ args).trim, [])
    else some (("run " ++ cmd.command ++ " " ++ args).trim, [])
  | .CMD, _ => none
  | .FILETRANSFER, .fileTransfer ft =>
    if ft.isDownload then
      if jobArgs.length > 2 then
        if jobArgs.length ≤ 3 then none
        else
          some ("upload " ++ jobArgs.getD 0 "" ++ " " ++ jobArgs.getD 1 "",
            ["Uploading file from server at " ++ jobArgs.getD 0 ""
              ++ " of size " ++ jobArgs.getD 3 "" ++ " bytes and SHA-256: "
              ++ hexEncode (strBytes (jobArgs.getD 2 "")) ++ " to agent at " ++ jobArgs.getD 1 ""])
      else some ("", [])
    else
      if jobArgs.length > 0 then
        some ("download " ++ jobArgs.getD 0 "",
          ["Downloading file from agent at " ++ jobArgs.getD 0 "" ++ "\n"])
      else some ("", [])
  | .FILETRANSFER, _ => none
  | .SHELLCODE, .shellcode sc =>
    some ("shellcode " ++ sc.method ++ " " ++ toString sc.pid ++ " length "
      ++ toString sc.bytes.length, [])
  | .SHELLCODE, _ => none
  | .SOCKS, .socksP sk =>
    some ("SOCKS connection " ++ sk.id ++ " packet " ++ toString sk.index, [])
  | .SOCKS, _ => none
  | .RESULT, p => some (jobsString .RESULT ++ " " ++ payloadDesc p, [])
  | .AGENTINFO, p => some (jobsString .AGENTINFO ++ " " ++ payloadDesc p, [])

/-- Whether `buildJob`'s summary step avoids every Go panic for this job and
argument vector. -/
def summaryTotal (job : Job) (jobArgs : List String) : Bool :=
  (summaryCore job jobArgs).isSome

/-- The "Created job ..." agent-log line of `buildJob`. -/
def createdMsg (t : JobType) (id command : String) : String :=
  "Created job Type:" ++ messagesString t ++ ", ID:" ++ id ++ ", Status:Created, Command:" ++ command

/-- `buildJob` (job.go:503-600): fills the server-side fields of a job,
creates its `JobInfo`, inserts both into the repository — discarding the
repository's error return — and writes the "Created job" agent-log line.
Unknown agents error out before any mutation. -/
def buildJob (env : Env) (agentID : Nat) (job : Job) (jobArgs : List String) (st : St) :
    Job × St × Option Err :=
  if agentID ∈ env.agents then
    let job1 := { job with agentID := agentID }
    match summaryCore job1 jobArgs with
    | none => (job1, st, some .errPanic)
    | some (command, lmsgs) =>
      let st1 := { st with logs := st.logs ++ lmsgs.map (fun m => (agentID, m)) }
      let info := newInfo st1.gen agentID (jobsString job1.jtype) command st1.now
      let st2 := { st1 with gen := st1.gen + 1 }
      let job2 := if job1.token = nilUUID then { job1 with token := info.token } else job1
      let job3 := if job2.id = "" then { job2 with id := info.id } else job2
      let st3 := { st2 with repo := (st2.repo.add job3 info).1 }
      let st4 := { st3 with logs := st3.logs ++ [(agentID, createdMsg job3.jtype job3.id command)] }
      (job3, st4, none)
  else (job, st, some .errUnknownAgent)

/-- A broadcast fan-out line of the `results` string. -/
def broadcastLine (id : String) (agentID : Nat) (now : Nat) : String :=
  "\n\tCreated job " ++ id ++ " for agent " ++ toString agentID ++ " at " ++ toString now

/-- The single-agent `results` string. -/
def singleLine (id : String) (agentID : Nat) (now : Nat) : String :=
  "Created job " ++ id ++ " for agent " ++ toString agentID ++ " at " ++ toString now

/-- The `for _, a := range agents` loop of `AddJobChannel`: note that the
one `job` value is threaded through every iteration, so `buildJob`'s
id/token assignment only fires on the first agent. -/
def broadcastLoop (env : Env) (job : Job) (jobArgs : List String) (st : St) (results : String) :
    List Nat → Job × St × String × Option Err
  | [] => (job, st, results, none)
  | a :: rest =>
    match buildJob env a job jobArgs st with
    | (job2, st2, none) =>
      broadcastLoop env job2 jobArgs st2 (results ++ broadcastLine job2.id a st2.now) rest
    | (job2, st2, some e) => (job2, st2, results, some e)

/-- The opening line of the broadcast `results` string. -/
def broadcastHeader : String :=
  "Creating jobs for all agents through broadcast identifier ffffffff-ffff-ffff-ffff-ffffffffffff"

/-- `AddJobChannel` (job.go:473-497): broadcast submissions fan out over
every currently-known agent and fail when none are known; single-agent
submissions build one job. -/
def addJobChannel (env : Env) (agentID : Nat) (job : Job) (jobArgs : List String) (st : St) :
    St × String × Option Err :=
  if agentID = broadcastUUID then
    if env.agents.length = 0 then (st, "", some .errNoAgents)
    else
      let out := broadcastLoop env job jobArgs st broadcastHeader env.agents
      (out.2.1, out.2.2.1, out.2.2.2)
  else
    match buildJob env agentID job jobArgs st with
    | (job2, st2, none) => (st2, singleLine job2.id agentID st2.now, none)
    | (_, st2, some e) => (st2, "", some e)

/-- `Service.Add` (job.go:74-469): build the payload for the command kind,
then hand the zero-valued `jobs.Job` carrying it to `AddJobChannel`. -/
def add (env : Env) (agentID : Nat) (jobType : String) (jobArgs : List String) (st : St) :
    St × String × Option Err :=
  match buildPayload env jobType jobArgs with
  | .error e => (st, "", some e)
  | .ok (t, p, args2) =>
    addJobChannel env agentID
      { id := "", agentID := nilUUID, token := nilUUID, jtype := t, payload := p } args2 st

/-! ## `NewJobService` (job.go:57-68)

The singleton state: `inst` is the `memoryService` package variable
(instances are numbered by `nextId`), `workers` counts the
`go memoryService.socksJobs()` statements executed.  In the source that
statement sits outside the `if memoryService == nil` block. -/

structure SvcSt where
  inst : Option Nat
  nextId : Nat
  workers : Nat
deriving DecidableEq

/-- `NewJobService`: create the service on first call, return the existing
instance afterwards, and start a SOCKS worker goroutine on every call. -/
def newJobService (s : SvcSt) : SvcSt × Nat :=
  match s.inst with
  | none =>
    ({ inst := some s.nextId, nextId := s.nextId + 1, workers := s.workers + 1 }, s.nextId)
  | some i => ({ s with workers := s.workers + 1 }, i)

/-! ## The check-in dispatcher (`checkJob`, `fileTransfer`, `Handler`) -/

/-- `checkJob` (job.go:603-623): agent existence, info lookup, token match,
and the terminal-status rejections, in source order. -/
def checkJob (env : Env) (r : Repo) (job : Job) : Option Err :=
  if job.agentID ∈ env.agents then
    match r.getInfo job.id with
    | none => some .errUnknownJob
    | some j =>
      if job.token ≠ j.token then some .errBadToken
      else if j.status = .COMPLETE then some .errAlreadyComplete
      else if j.status = .CANCELED then some .errAlreadyCanceled
      else none
  else some .errJobInvalidAgent

/-- The per-agent download directory `<cwd>/data/agents`. -/
def agentsDirOf (env : Env) : String := pathJoin (pathJoin env.cwd "data") "agents"

/-- `ioutil.WriteFile(filepath.Join(dir, fname), bytes, mode)`: the write
succeeds exactly when the parent directory exists, replacing any previous
file at that path. -/
def writeFile (st : St) (dir fname : String) (bytes : List Nat) (mode : Nat) : St × Bool :=
  if dir ∈ st.dirs then
    ({ st with files :=
        st.files.filter (fun e => e.1 ≠ pathJoin dir fname) ++ [(pathJoin dir fname, bytes, mode)] },
     true)
  else (st, false)

/-- The first broadcast of `fileTransfer`. -/
def resultsForMsg (agentID : Nat) (now : Nat) : String :=
  "Results for " ++ toString agentID ++ " at " ++ toString now

/-- The success line of `fileTransfer`. -/
def dlSuccessMsg (loc : String) (n : Nat) (agentID : Nat) (dest : String) : String :=
  "Successfully downloaded file " ++ loc ++ " with a size of " ++ toString n
    ++ " bytes from agent " ++ toString agentID ++ " to " ++ dest

/-- `fileTransfer` (job.go:636-699).  Only payloads with `IsDownload = true`
are materialized: the blob is base64-decoded and written with mode `0600`
(384) to `<cwd>/data/agents/<agent>/<basename(location)>`; a missing
`data/agents` directory, a bad blob, or a failing write are logged against
the agent and returned as errors.  Payloads with `IsDownload = false`
return immediately with no effect. -/
def fileTransfer (env : Env) (agentID : Nat) (p : FileTransfer) (st : St) : St × Option Err :=
  if agentID ∈ env.agents then
    if p.isDownload then
      let agentsDir := agentsDirOf env
      let f := splitBase p.fileLocation
      if agentsDir ∈ st.dirs then
        let st1 := { st with msgs := st.msgs ++ [⟨.success, resultsForMsg agentID st.now⟩] }
        match base64Decode p.fileBlob with
        | none =>
          ({ st1 with logs :=
              st1.logs ++ [(agentID, "there was an error decoding the fileBlob")] },
           some .errBlobDecode)
        | some blob =>
          let perDir := pathJoin agentsDir (toString agentID)
          let w := writeFile st1 perDir f blob 384
          if w.2 then
            let success := dlSuccessMsg p.fileLocation blob.length agentID (pathJoin perDir f)
            ({ w.1 with msgs := w.1.msgs ++ [⟨.success, success⟩],
                        logs := w.1.logs ++ [(agentID, success)] },
             none)
          else
            ({ w.1 with logs :=
                w.1.logs ++ [(agentID, "there was an error writing to -> " ++ p.fileLocation)] },
             some .errWrite)
      else
        ({ st with logs :=
            st.logs ++ [(agentID, "there was an error locating the agent's directory")] },
         some .errAgentsDirMissing)
    else (st, none)
  else (st, some .errUnknownAgent)

/-- The gated debug print of `Handler` for tolerated RESULT messages. -/
def debugMsg (t : JobType) : String :=
  "Received " ++ messagesString t ++ " message without job token"

/-- The RESULT arm of `Handler`'s dispatch: log and broadcast the job
reference, then the stdout (success level) and stderr (warn level) portions
when non-empty.  The `job.Payload.(jobs.Results)` assertion panics after
the first log and broadcast. -/
def dispatchResult (st : St) (agentID : Nat) (job : Job) : St × Option Err :=
  let st1 := { st with logs := st.logs ++ [(agentID, "Results for job: " ++ job.id)] }
  let st2 := { st1 with msgs :=
      st1.msgs ++ [⟨.note, "Results job " ++ job.id ++ " for agent " ++ toString agentID⟩] }
  match job.payload with
  | .results r =>
    let st3 :=
      if r.stdout.length > 0 then
        { st2 with logs := st2.logs ++ [(agentID, "Command Results (stdout):\r\n" ++ r.stdout)],
                   msgs := st2.msgs ++ [⟨.success, r.stdout⟩] }
      else st2
    let st4 :=
      if r.stderr.length > 0 then
        { st3 with logs := st3.logs ++ [(agentID, "Command Results (stderr):\r\n" ++ r.stderr)],
                   msgs := st3.msgs ++ [⟨.warn, r.stderr⟩] }
      else st3
    (st4, none)
  | _ => (st2, some .errPanic)

/-- Step 5 of §4.4: dispatch by job type.  AGENTINFO updates are forwarded
to the agent directory (recorded in `agentInfoUpdates`; the directory is
modelled as always accepting them), SOCKS jobs go to the external inbound
sink, other types have no dispatch action. -/
def dispatch (env : Env) (st : St) (job : Job) : St × Option Err :=
  match job.jtype with
  | .RESULT => dispatchResult st job.agentID job
  | .AGENTINFO =>
    match job.payload with
    | .agentInfoP tag =>
      ({ st with agentInfoUpdates := st.agentInfoUpdates ++ [(job.agentID, tag)] }, none)
    | _ => (st, some .errPanic)
  | .FILETRANSFER =>
    match job.payload with
    | .fileTransfer f => fileTransfer env job.agentID f st
    | _ => (st, some .errPanic)
  | .SOCKS => ({ st with socksIn := st.socksIn ++ [job] }, none)
  | _ => (st, none)

/-- Persist an updated info record via `update_info`. -/
def doUpdate (st : St) (i : Info) : St × Option Err :=
  let u := st.repo.updateInfo i
  if u.2 then ({ st with repo := u.1 }, none) else ({ st with repo := u.1 }, some .errUpdateInfo)

/-- Step 6 of §4.4: SOCKS jobs become ACTIVE unless the payload's close flag
is set (COMPLETE); every other type becomes COMPLETE.  The
`job.Payload.(jobs.Socks)` assertion panics on a mistyped SOCKS payload. -/
def statusStep (st : St) (info : Info) (job : Job) : St × Option Err :=
  match job.jtype, job.payload with
  | .SOCKS, .socksP sk =>
    doUpdate st (if sk.close then info.complete st.now else info.active)
  | .SOCKS, _ => (st, some .errPanic)
  | _, _ => doUpdate st (info.complete st.now)

/-- The tail of `Handler`'s loop body once the job passed (or, for RESULT
jobs, was excused from) `checkJob`: dispatch, then advance and persist the
status. -/
def afterCheck (env : Env) (st : St) (jobInfo : Info) (job : Job) : St × Option Err :=
  match dispatch env st job with
  | (st1, some e) => (st1, some e)
  | (st1, none) => statusStep st1 jobInfo job

/-- One iteration of `Handler`'s loop (job.go:790-883).  An unknown agent
only yields a broadcast warning; a missing info record aborts the batch
for every job type; a failing `checkJob` aborts unless the job is a
RESULT, which is instead noted in the debug log when `core.Debug` is
set and processed anyway. -/
def handleOne (env : Env) (st : St) (job : Job) : St × Option Err :=
  if job.agentID ∈ env.agents then
    match st.repo.getInfo job.id with
    | none => (st, some .errUnknownJob)
    | some jobInfo =>
      match checkJob env st.repo job with
      | some e =>
        if job.jtype ≠ .RESULT then (st, some e)
        else
          let st1 :=
            if env.debug then { st with debugLogs := st.debugLogs ++ [debugMsg job.jtype] }
            else st
          afterCheck env st1 jobInfo job
      | none => afterCheck env st jobInfo job
  else
    ({ st with msgs :=
        st.msgs ++ [⟨.warn, "Job " ++ job.id ++ " was for an invalid agent " ++ toString job.agentID⟩] },
     none)

/-- `Handler` (job.go:788-885): process an inbound batch in order; the
first aborting error stops the batch and is returned. -/
def handler (env : Env) (st : St) : List Job → St × Option Err
  | [] => (st, none)
  | j :: rest =>
    match handleOne env st j with
    | (st1, none) => handler env st1 rest
    | (st1, some e) => (st1, some e)

/-! ## Auxiliary predicates used by the theorems -/

/-- The SOCKS status-update type assertion cannot panic on this job. -/
def socksPayloadOk (job : Job) : Bool :=
  match job.jtype, job.payload with
  | .SOCKS, .socksP _ => true
  | .SOCKS, _ => false
  | _, _ => true

/-- The status `Handler` persists for an accepted job (§4.4 step 6). -/
def advance (info : Info) (job : Job) (now : Nat) : Info :=
  match job.jtype, job.payload with
  | .SOCKS, .socksP sk => if sk.close then info.complete now else info.active
  | _, _ => info.complete now

/-- The repository after `update_info` replaced the entries carrying
`i.id`. -/
def replaceInfos (st : St) (i : Info) : St :=
  { st with
    repo := { st.repo with
              infos := st.repo.infos.map (fun x => if x.id = i.id then i else x) } }

/-- The fan-out `JobInfo` records a broadcast submission creates: one per
agent, with consecutive fresh generator values. -/
def fanInfos (tstr cmd : String) (now : Nat) : Nat → List Nat → List Info
  | _, [] => []
  | g, a :: rest => newInfo g a tstr cmd now :: fanInfos tstr cmd now (g + 1) rest

/-- Every id the repository holds was generated below the current generator
value — the freshness invariant `gen` maintains. -/
def GenFresh (st : St) : Prop :=
  ∀ g, st.gen ≤ g → findInfo st.repo.infos (idOf g) = none

/-- The state after one successful `buildJob` for agent `a` that queued the
(post-mutation) job `jobQ` with info type string `tstr`, summary `cmd` and
summary-stage log lines `lmsgs`. -/
def stepState (st : St) (a : Nat) (jobQ : Job) (tstr cmd : String) (lmsgs : List String) : St :=
  { st with
    logs := st.logs ++ lmsgs.map (fun m => (a, m)) ++ [(a, createdMsg jobQ.jtype jobQ.id cmd)],
    gen := st.gen + 1,
    repo := { infos := st.repo.infos ++ [newInfo st.gen a tstr cmd st.now],
              queue := st.repo.queue ++ [jobQ] } }

/-! ## Concrete demonstration fixtures -/

/-- An empty repository. -/
def emptyRepo : Repo := { infos := [], queue := [] }

/-- A one-known-agent environment (agent `7`); the server file `/tmp/x`
holds the bytes of `"hello"`, and the digest function is a fixed
32-byte-output stand-in for SHA-256 (only its output length matters to the
statements below). -/
def demoEnv : Env :=
  { agents := [7], debug := false, cwd := "cw",
    readFile := fun p => if p = "/tmp/x" then some [104, 101, 108, 108, 111] else none,
    sha256 := fun _ => List.range 32 }

/-- A two-agent environment for the broadcast scenarios. -/
def demoEnv2 : Env := { demoEnv with agents := [1, 2] }

/-- The base state: empty repository and logs, the `data/agents` directory
and the per-agent directory of agent `7` both present. -/
def demoSt : St :=
  { repo := emptyRepo, logs := [], msgs := [], debugLogs := [], socksIn := [],
    agentInfoUpdates := [], dirs := ["cw/data/agents", "cw/data/agents/7"], files := [],
    gen := 0, now := 5 }

/-- A tracked job: id `"a"`, token `5`, status SENT, for agent `7`. -/
def demoInfo : Info :=
  { id := "a", agentID := 7, jtype := "Results", command := "x", token := 5,
    status := .SENT, created := 0, sent := 0, completed := 0 }

/-- `demoSt` with `demoInfo` tracked. -/
def demoStInfo : St := { demoSt with repo := { infos := [demoInfo], queue := [] } }

/-- An inbound RESULT for job `"a"` carrying the wrong token `6`. -/
def demoJobBadTok : Job :=
  { id := "a", agentID := 7, token := 6, jtype := .RESULT,
    payload := .results { stdout := "out", stderr := "" } }

/-- An inbound RESULT for job `"a"` carrying the correct token `5`. -/
def demoJobRes : Job := { demoJobBadTok with token := 5 }

/-- An inbound RESULT whose id `"zz"` is tracked by no `JobInfo`. -/
def demoJobUnknown : Job := { demoJobBadTok with id := "zz", token := 5 }

/-- An inbound SOCKS close frame for job `"a"` with the correct token. -/
def demoJobSocksClose : Job :=
  { id := "a", agentID := 7, token := 5, jtype := .SOCKS,
    payload := .socksP { id := "c1", index := 0, data := [], close := true } }

/-- An inbound SOCKS non-close frame for job `"a"` with the correct token. -/
def demoJobSocksOpen : Job :=
  { demoJobSocksClose with
    payload := .socksP { id := "c1", index := 0, data := [], close := false } }

/-- An inbound FILETRANSFER result with `is_download = false` (S5's shape). -/
def demoJobFTFalse : Job :=
  { id := "a", agentID := 7, token := 5, jtype := .FILETRANSFER,
    payload := .fileTransfer { fileLocation := "/etc/passwd", fileBlob := "Zm9v", isDownload := false } }

/-- The same inbound FILETRANSFER with `is_download = true`. -/
def demoJobFTTrue : Job :=
  { demoJobFTFalse with
    payload := .fileTransfer { fileLocation := "/etc/passwd", fileBlob := "Zm9v", isDownload := true } }

/-- A zero-valued builder job carrying an `ifconfig` NATIVE payload. -/
def demoJobBuild : Job :=
  { id := "", agentID := 0, token := 0, jtype := .NATIVE, payload := cmdOnly "ifconfig" }

/-- A SOCKS frame for job `"a"` carrying the wrong token `9`. -/
def demoJobSocksBadTok : Job := { demoJobSocksClose with token := 9 }

/-- `demoInfo` already completed. -/
def demoInfoComplete : Info := { demoInfo with status := .COMPLETE }

/-- `demoSt` tracking the completed `demoInfoComplete`. -/
def demoStComplete : St := { demoSt with repo := { infos := [demoInfoComplete], queue := [] } }

/-- `demoStInfo` with the per-agent directory of agent `7` absent. -/
def demoStNoPerDir : St := { demoStInfo with dirs := ["cw/data/agents"] }

/-! ## Helper lemmas -/

theorem findInfo_eq_id {l : List Info} {id : String} {i : Info}
    (h : findInfo l id = some i) : i.id = id := by
  induction l with
  | nil => simp [findInfo] at h
  | cons x rest ih =>
    by_cases hx : x.id = id
    · simp [findInfo, hx] at h
      subst h
      exact hx
    · simp [findInfo, hx] at h
      exact ih h

theorem findInfo_append_some {l1 l2 : List Info} {id : String} {i : Info}
    (h : findInfo l1 id = some i) : findInfo (l1 ++ l2) id = some i := by
  induction l1 with
  | nil => simp [findInfo] at h
  | cons x rest ih =>
    by_cases hx : x.id = id
    · simp [findInfo, hx] at h ⊢
      exact h
    · simp [findInfo, hx] at h ⊢
      exact ih h

theorem findInfo_append_none {l1 l2 : List Info} {id : String}
    (h : findInfo l1 id = none) : findInfo (l1 ++ l2) id = findInfo l2 id := by
  induction l1 with
  | nil => simp [findInfo]
  | cons x rest ih =>
    by_cases hx : x.id = id
    · simp [findInfo, hx] at h
    · simp [findInfo, hx] at h ⊢
      exact ih h

theorem findInfo_map_replace (l : List Info) (i' : Info) :
    findInfo (l.map (fun x => if x.id = i'.id then i' else x)) i'.id =
      (findInfo l i'.id).map (fun _ => i') := by
  induction l with
  | nil => simp [findInfo]
  | cons x rest ih =>
    by_cases hx : x.id = i'.id
    · simp [findInfo, hx]
    · simp [findInfo, hx, ih]

theorem idOf_inj {g1 g2 : Nat} (h : idOf g1 = idOf g2) : g1 = g2 := by
  have hlen := congrArg (fun s => s.data.length) h
  simpa [idOf] using hlen

theorem idOf_ne_empty (g : Nat) : idOf g ≠ "" := by
  intro h
  have hlen := congrArg (fun s => s.data.length) h
  simp [idOf] at hlen

theorem tokOf_ne_nil (g : Nat) : tokOf g ≠ nilUUID := by
  simp [tokOf, nilUUID]

/-- `checkJob` passes when the agent is known, the info is present with a
matching token and the status is not terminal. -/
theorem checkJob_none {env : Env} {st : St} {job : Job} {info : Info}
    (hmem : job.agentID ∈ env.agents)
    (hinfo : st.repo.getInfo job.id = some info)
    (htok : job.token = info.token)
    (hc1 : info.status ≠ .COMPLETE)
    (hc2 : info.status ≠ .CANCELED) :
    checkJob env st.repo job = none := by
  simp [checkJob, hmem, Repo.getInfo] at *
  simp [hinfo, htok, hc1, hc2]

/-- `dispatch` never touches the repository or the clock. -/
theorem dispatch_repo_now (env : Env) (st : St) (job : Job) :
    (dispatch env st job).1.repo = st.repo ∧ (dispatch env st job).1.now = st.now := by
  unfold dispatch dispatchResult fileTransfer writeFile
  repeat' split
  all_goals simp_all [apply_ite]

/-- `fileTransfer` never touches the repository or the clock. -/
theorem fileTransfer_repo_now (env : Env) (a : Nat) (p : FileTransfer) (st : St) :
    (fileTransfer env a p st).1.repo = st.repo ∧ (fileTransfer env a p st).1.now = st.now := by
  unfold fileTransfer writeFile
  repeat' split
  all_goals simp_all [apply_ite]

/-! ## Claim C1 -/

/-- C1, counterexample.  The claim states that an inbound RESULT whose token
does not match the stored token is rejected with no status change, no
success broadcast, no log entry, and an `ErrBadToken` return.  On the code,
`Handler` excuses RESULT jobs from a failing `checkJob`: at this concrete
state (stored token `5`, inbound token `6`) the call returns no error, the
stored status advances to COMPLETE, the stdout success broadcast is
emitted, and two agent-log entries are written. -/
theorem C1_counterexample :
    (handler demoEnv demoStInfo [demoJobBadTok]).2 = none ∧
    ((handler demoEnv demoStInfo [demoJobBadTok]).1.repo.getInfo "a").map Info.status
      = some .COMPLETE ∧
    (⟨.success, "out"⟩ : UserMessage) ∈ (handler demoEnv demoStInfo [demoJobBadTok]).1.msgs ∧
    (handler demoEnv demoStInfo [demoJobBadTok]).1.logs.length = 2 := by
  decide

/-- C1 (amended): for every inbound job of any type other than RESULT whose
token does not match the token stored in its `JobInfo`, `Handler` rejects
it with the state untouched — no status or timestamp change, no broadcast,
no agent-log entry — and returns the `ErrBadToken` error; a RESULT job with
a mismatched token is instead tolerated and processed (see the
counterexample). -/
theorem C1_theorem (env : Env) (st : St) (job : Job) (info : Info)
    (hmem : job.agentID ∈ env.agents)
    (hinfo : st.repo.getInfo job.id = some info)
    (htok : job.token ≠ info.token)
    (hty : job.jtype ≠ .RESULT) :
    handler env st [job] = (st, some .errBadToken) := by
  have hfind : findInfo st.repo.infos job.id = some info := hinfo
  have hchk : checkJob env st.repo job = some .errBadToken := by
    simp [checkJob, hmem, Repo.getInfo, hfind, htok]
  simp [handler, handleOne, hmem, Repo.getInfo, hfind, hchk, hty]

/-- C1, witness: a SOCKS frame with token `9` against stored token `5` is
rejected with `ErrBadToken` and no state change. -/
theorem C1_witness :
    handler demoEnv demoStInfo [demoJobSocksBadTok] = (demoStInfo, some .errBadToken) :=
  C1_theorem demoEnv demoStInfo demoJobSocksBadTok demoInfo (by decide) (by decide)
    (by decide) (by decide)

/-! ## Claim C3 -/

/-- C3: the claim (and §4.4 step 2 of the spec) says a RESULT job whose id
is unknown is logged at debug level and the batch continues.  The code
contradicts this (and its own comment "Agent will send back error messages
that are not the result of a job"): `Handler` fetches the `JobInfo` before
`checkJob` and aborts the whole batch on the lookup failure for every job
type, so the RESULT tolerance is unreachable for unknown ids.  At this
concrete input the unknown-id RESULT aborts the batch — the state is
unchanged and the well-formed RESULT behind it in the batch is never
processed — while the same trailing job alone is accepted. -/
theorem C3_theorem :
    handler demoEnv demoStInfo [demoJobUnknown, demoJobRes] = (demoStInfo, some .errUnknownJob) ∧
    (handler demoEnv demoStInfo [demoJobRes]).2 = none := by
  decide

/-- The status advance preserves the record's id. -/
theorem advance_id (info : Info) (job : Job) (now : Nat) :
    (advance info job now).id = info.id := by
  unfold advance Info.complete Info.active
  repeat' split
  all_goals rfl

/-- When the id is present, `update_info` succeeds and the persisted record
replaces every entry with that id. -/
theorem doUpdate_found (st : St) (i : Info) (h : (st.repo.getInfo i.id).isSome = true) :
    doUpdate st i = (replaceInfos st i, none) := by
  simp [doUpdate, Repo.updateInfo, replaceInfos, h]

/-- For a job whose SOCKS assertion cannot panic, the status step persists
exactly `advance`. -/
theorem statusStep_eq_doUpdate (st : St) (info : Info) (job : Job)
    (hwt : socksPayloadOk job = true) :
    statusStep st info job = doUpdate st (advance info job st.now) := by
  cases hjt : job.jtype <;> cases hpl : job.payload <;>
    simp_all [statusStep, advance, socksPayloadOk]

/-! ## Claim C6 -/

/-- C6: for every inbound job `Handler` accepts (known agent, tracked info
with matching token, non-terminal status, a dispatch step that neither
errors nor panics), the persisted transition is `advance`: SOCKS jobs with
the close flag unset become ACTIVE, SOCKS jobs with it set become COMPLETE,
every other type becomes COMPLETE, and the update is visible through the
repository when `Handler` returns.  Second conjunct: a second inbound SOCKS
frame for an id already COMPLETE (same token) is rejected with the
`ErrAlreadyTerminal` error and no state change. -/
theorem C6_theorem :
    (∀ (env : Env) (st : St) (job : Job) (info : Info),
      job.agentID ∈ env.agents →
      st.repo.getInfo job.id = some info →
      job.token = info.token →
      info.status ≠ .COMPLETE →
      info.status ≠ .CANCELED →
      socksPayloadOk job = true →
      (dispatch env st job).2 = none →
      (handler env st [job]).2 = none ∧
      (handler env st [job]).1.repo.getInfo job.id = some (advance info job st.now)) ∧
    (∀ (env : Env) (st : St) (job : Job) (info : Info),
      job.agentID ∈ env.agents →
      st.repo.getInfo job.id = some info →
      job.token = info.token →
      info.status = .COMPLETE →
      job.jtype = .SOCKS →
      handler env st [job] = (st, some .errAlreadyComplete)) := by
  constructor
  · intro env st job info hmem hinfo htok hc1 hc2 hwt hdisp
    have hfind : findInfo st.repo.infos job.id = some info := hinfo
    have hchk := checkJob_none hmem hinfo htok hc1 hc2
    have hinfoid : info.id = job.id := findInfo_eq_id hfind
    obtain ⟨st1, hd⟩ : ∃ s, dispatch env st job = (s, none) :=
      ⟨(dispatch env st job).1, by rw [← hdisp]⟩
    have hrepo : st1.repo = st.repo := by
      have h := (dispatch_repo_now env st job).1
      rw [hd] at h
      exact h
    have hnow : st1.now = st.now := by
      have h := (dispatch_repo_now env st job).2
      rw [hd] at h
      exact h
    have hpres : (st.repo.getInfo info.id).isSome = true := by
      rw [hinfoid]
      simp [Repo.getInfo, hfind]
    have hss := statusStep_eq_doUpdate st1 info job hwt
    rw [hnow] at hss
    have hdu := doUpdate_found st1 (advance info job st.now)
      (by rw [advance_id, hrepo]; exact hpres)
    have hstep : statusStep st1 info job = (replaceInfos st1 (advance info job st.now), none) :=
      hss.trans hdu
    have hh : handler env st [job] = (replaceInfos st1 (advance info job st.now), none) := by
      simp [handler, handleOne, hmem, Repo.getInfo, hfind, hchk, afterCheck, hd, hstep]
    rw [hh]
    refine ⟨rfl, ?_⟩
    have hmr := findInfo_map_replace st.repo.infos (advance info job st.now)
    rw [advance_id, hinfoid, hfind] at hmr
    simp only [replaceInfos, Repo.getInfo, hrepo]
    rw [advance_id, hinfoid]
    simpa [advance_id, hinfoid] using hmr
  · intro env st job info hmem hinfo htok hcomp hjt
    have hfind : findInfo st.repo.infos job.id = some info := hinfo
    have hchk : checkJob env st.repo job = some .errAlreadyComplete := by
      simp [checkJob, hmem, Repo.getInfo, hfind, htok, hcomp]
    have hty : ¬(job.jtype = .RESULT) := by
      rw [hjt]
      intro hx
      cases hx
    simp [handler, handleOne, hmem, Repo.getInfo, hfind, hchk, hty]

/-- C6, witness: a SOCKS non-close frame with the correct token moves the
SENT record to ACTIVE with no error, and a SOCKS close frame for an
already-COMPLETE record is rejected with `ErrAlreadyTerminal`. -/
theorem C6_witness :
    ((handler demoEnv demoStInfo [demoJobSocksOpen]).2 = none ∧
     (handler demoEnv demoStInfo [demoJobSocksOpen]).1.repo.getInfo demoJobSocksOpen.id
       = some (advance demoInfo demoJobSocksOpen demoStInfo.now)) ∧
    handler demoEnv demoStComplete [demoJobSocksClose]
      = (demoStComplete, some .errAlreadyComplete) :=
  ⟨C6_theorem.1 demoEnv demoStInfo demoJobSocksOpen demoInfo (by decide) (by decide)
      (by decide) (by decide) (by decide) (by decide) (by decide),
   C6_theorem.2 demoEnv demoStComplete demoJobSocksClose demoInfoComplete (by decide)
      (by decide) (by decide) (by decide) (by decide)⟩

/-! ## Claim C7 -/

/-- C7, counterexample.  The claim states that after `Handler` completes a
job, a second invocation with the same `(id, token)` returns
`ErrAlreadyTerminal` and does not re-log.  For RESULT-typed jobs the code
tolerates the failing terminal-status check: at this concrete state the
first call completes job `"a"`, yet the identical second call returns no
error and writes two further agent-log entries. -/
theorem C7_counterexample :
    (((handler demoEnv demoStInfo [demoJobRes]).1.repo.getInfo "a").map Info.status
      = some .COMPLETE) ∧
    (handler demoEnv (handler demoEnv demoStInfo [demoJobRes]).1 [demoJobRes]).2 = none ∧
    (handler demoEnv (handler demoEnv demoStInfo [demoJobRes]).1 [demoJobRes]).1.logs.length
      = (handler demoEnv demoStInfo [demoJobRes]).1.logs.length + 2 := by
  decide

/-- C7 (amended): for every job `Handler` has transitioned to COMPLETE, a
second invocation carrying a job with the same `(id, token)` and any type
other than RESULT returns `ErrAlreadyTerminal` with no re-dispatch, no new
log or broadcast entries, and the stored `JobInfo` unchanged; a repeated
RESULT is instead tolerated and re-processed (see the counterexample). -/
theorem C7_theorem (env : Env) (st : St) (job : Job) (info : Info)
    (hmem : job.agentID ∈ env.agents)
    (hinfo : st.repo.getInfo job.id = some info)
    (htok : job.token = info.token)
    (hcomp : info.status = .COMPLETE)
    (hty : job.jtype ≠ .RESULT) :
    handler env st [job] = (st, some .errAlreadyComplete) := by
  have hfind : findInfo st.repo.infos job.id = some info := hinfo
  have hchk : checkJob env st.repo job = some .errAlreadyComplete := by
    simp [checkJob, hmem, Repo.getInfo, hfind, htok, hcomp]
  simp [handler, handleOne, hmem, Repo.getInfo, hfind, hchk, hty]

/-- C7, witness: re-sending a FILETRANSFER job whose record is COMPLETE
(same id and token) yields `ErrAlreadyTerminal` and leaves the state
untouched. -/
theorem C7_witness :
    handler demoEnv demoStComplete [demoJobFTTrue] = (demoStComplete, some .errAlreadyComplete) :=
  C7_theorem demoEnv demoStComplete demoJobFTTrue demoInfoComplete (by decide) (by decide)
    (by decide) (by decide) (by decide)

/-- Completing an info record preserves its id. -/
theorem complete_id (i : Info) (now : Nat) : (Info.complete i now).id = i.id := rfl

/-! ## Claim C4 -/

/-- C4, counterexample.  The claim states that a FILETRANSFER result with
`is_download = false` and a valid blob is written to the per-agent
directory with a success broadcast.  In the code `fileTransfer` only acts
when `IsDownload` is **true**: at this concrete state (known agent `7`,
valid blob `"Zm9v"`, both directories present) the `is_download = false`
job is accepted with no error, yet no file is written, no broadcast is
emitted, and the job is simply marked COMPLETE. -/
theorem C4_counterexample :
    (handler demoEnv demoStInfo [demoJobFTFalse]).2 = none ∧
    (handler demoEnv demoStInfo [demoJobFTFalse]).1.files = [] ∧
    (handler demoEnv demoStInfo [demoJobFTFalse]).1.msgs = [] ∧
    ((handler demoEnv demoStInfo [demoJobFTFalse]).1.repo.getInfo "a").map Info.status
      = some .COMPLETE := by
  decide

/-- C4 (amended): when `Handler` accepts a FILETRANSFER job from a known
agent whose payload has `is_download = true` (not `false` as claimed) and a
valid base64 blob, and the `data/agents` directory exists, then: if the
per-agent directory exists the decoded bytes are written to
`<cwd>/data/agents/<agent>/<basename(location)>` with mode `0600` and a
success broadcast is emitted (and the job completes); if the per-agent
directory is absent the write fails and `Handler` returns the error. -/
theorem C4_theorem (env : Env) (st : St) (job : Job) (ft : FileTransfer) (info : Info)
    (blob : List Nat)
    (hmem : job.agentID ∈ env.agents)
    (hinfo : st.repo.getInfo job.id = some info)
    (htok : job.token = info.token)
    (hc1 : info.status ≠ .COMPLETE)
    (hc2 : info.status ≠ .CANCELED)
    (hty : job.jtype = .FILETRANSFER)
    (hpl : job.payload = .fileTransfer ft)
    (hdl : ft.isDownload = true)
    (hdec : base64Decode ft.fileBlob = some blob)
    (hdir : agentsDirOf env ∈ st.dirs) :
    (pathJoin (agentsDirOf env) (toString job.agentID) ∈ st.dirs →
      (handler env st [job]).2 = none ∧
      (handler env st [job]).1.files =
        st.files.filter
            (fun e => e.1 ≠ pathJoin (pathJoin (agentsDirOf env) (toString job.agentID))
              (splitBase ft.fileLocation)) ++
          [(pathJoin (pathJoin (agentsDirOf env) (toString job.agentID))
              (splitBase ft.fileLocation), blob, 384)] ∧
      (⟨.success, resultsForMsg job.agentID st.now⟩ : UserMessage) ∈ (handler env st [job]).1.msgs ∧
      (handler env st [job]).1.repo.getInfo job.id = some (info.complete st.now)) ∧
    (pathJoin (agentsDirOf env) (toString job.agentID) ∉ st.dirs →
      (handler env st [job]).2 = some .errWrite) := by
  have hfind : findInfo st.repo.infos job.id = some info := hinfo
  have hchk := checkJob_none hmem hinfo htok hc1 hc2
  have hinfoid : info.id = job.id := findInfo_eq_id hfind
  constructor
  · intro hin
    have hft2 : (fileTransfer env job.agentID ft st).2 = none := by
      simp [fileTransfer, writeFile, hmem, hdl, hdir, hdec, hin]
    obtain ⟨st1, hd⟩ : ∃ s, fileTransfer env job.agentID ft st = (s, none) :=
      ⟨(fileTransfer env job.agentID ft st).1, by rw [← hft2]⟩
    have hdisp : dispatch env st job = (st1, none) := by
      simp [dispatch, hty, hpl, hd]
    have hrepo : st1.repo = st.repo := by
      have h := (fileTransfer_repo_now env job.agentID ft st).1
      rw [hd] at h
      exact h
    have hpres : (st1.repo.getInfo (info.complete st.now).id).isSome = true := by
      rw [complete_id, hrepo, hinfoid]
      simp [Repo.getInfo, hfind]
    have hwt : socksPayloadOk job = true := by
      simp [socksPayloadOk, hty]
    have hadv : advance info job st1.now = info.complete st1.now := by
      simp [advance, hty, hpl]
    have hnow : st1.now = st.now := by
      have h := (fileTransfer_repo_now env job.agentID ft st).2
      rw [hd] at h
      exact h
    have hss := statusStep_eq_doUpdate st1 info job hwt
    rw [hadv, hnow] at hss
    have hstep : statusStep st1 info job = (replaceInfos st1 (info.complete st.now), none) :=
      hss.trans (doUpdate_found st1 (info.complete st.now) hpres)
    have hh : handler env st [job] = (replaceInfos st1 (info.complete st.now), none) := by
      simp [handler, handleOne, hmem, Repo.getInfo, hfind, hchk, afterCheck, hdisp, hstep]
    rw [hh]
    refine ⟨rfl, ?_, ?_, ?_⟩
    · have hfiles : (fileTransfer env job.agentID ft st).1.files =
          st.files.filter
              (fun e => e.1 ≠ pathJoin (pathJoin (agentsDirOf env) (toString job.agentID))
                (splitBase ft.fileLocation)) ++
            [(pathJoin (pathJoin (agentsDirOf env) (toString job.agentID))
                (splitBase ft.fileLocation), blob, 384)] := by
        simp [fileTransfer, writeFile, hmem, hdl, hdir, hdec, hin]
      rw [hd] at hfiles
      simpa [replaceInfos] using hfiles
    · have hmsgs : (⟨.success, resultsForMsg job.agentID st.now⟩ : UserMessage)
          ∈ (fileTransfer env job.agentID ft st).1.msgs := by
        simp [fileTransfer, writeFile, hmem, hdl, hdir, hdec, hin]
      rw [hd] at hmsgs
      simpa [replaceInfos] using hmsgs
    · have hmr := findInfo_map_replace st.repo.infos (info.complete st.now)
      rw [complete_id, hinfoid, hfind] at hmr
      simp only [replaceInfos, Repo.getInfo, hrepo]
      rw [complete_id, hinfoid]
      simpa [complete_id, hinfoid] using hmr
  · intro hout
    have hft2 : (fileTransfer env job.agentID ft st).2 = some .errWrite := by
      simp [fileTransfer, writeFile, hmem, hdl, hdir, hdec, hout]
    obtain ⟨st1, hd⟩ : ∃ s, fileTransfer env job.agentID ft st = (s, some .errWrite) :=
      ⟨(fileTransfer env job.agentID ft st).1, by rw [← hft2]⟩
    have hdisp : dispatch env st job = (st1, some .errWrite) := by
      simp [dispatch, hty, hpl, hd]
    simp [handler, handleOne, hmem, Repo.getInfo, hfind, hchk, afterCheck, hdisp]

/-- C4, witness: the `is_download = true` variant of S5 lands
`data/agents/7/passwd` with bytes `foo` and mode `0600` and broadcasts
success, while the state missing the per-agent directory yields the write
error. -/
theorem C4_witness :
    ((handler demoEnv demoStInfo [demoJobFTTrue]).2 = none ∧
     (handler demoEnv demoStInfo [demoJobFTTrue]).1.files =
       demoStInfo.files.filter
           (fun e => e.1 ≠ pathJoin (pathJoin (agentsDirOf demoEnv) (toString demoJobFTTrue.agentID))
             (splitBase "/etc/passwd")) ++
         [(pathJoin (pathJoin (agentsDirOf demoEnv) (toString demoJobFTTrue.agentID))
             (splitBase "/etc/passwd"), [102, 111, 111], 384)] ∧
     (⟨.success, resultsForMsg demoJobFTTrue.agentID demoStInfo.now⟩ : UserMessage)
       ∈ (handler demoEnv demoStInfo [demoJobFTTrue]).1.msgs ∧
     (handler demoEnv demoStInfo [demoJobFTTrue]).1.repo.getInfo demoJobFTTrue.id
       = some (demoInfo.complete demoStInfo.now)) ∧
    (handler demoEnv demoStNoPerDir [demoJobFTTrue]).2 = some .errWrite :=
  ⟨(C4_theorem demoEnv demoStInfo demoJobFTTrue
        { fileLocation := "/etc/passwd", fileBlob := "Zm9v", isDownload := true }
        demoInfo [102, 111, 111] (by decide) (by decide) (by decide) (by decide) (by decide)
        (by decide) (by decide) (by decide) (by decide) (by decide)).1 (by decide),
   (C4_theorem demoEnv demoStNoPerDir demoJobFTTrue
        { fileLocation := "/etc/passwd", fileBlob := "Zm9v", isDownload := true }
        demoInfo [102, 111, 111] (by decide) (by decide) (by decide) (by decide) (by decide)
        (by decide) (by decide) (by decide) (by decide) (by decide)).2 (by decide)⟩

/-- The summary is insensitive to the agent-id field `buildJob` sets. -/
theorem summaryCore_agentID (job : Job) (a : Nat) (jobArgs : List String) :
    summaryCore { job with agentID := a } jobArgs = summaryCore job jobArgs := rfl

/-- One `buildJob` iteration for a job whose id and token are already set
(every broadcast iteration after the first): the job is queued unchanged
except for its agent id, and a fresh info record is appended. -/
theorem buildJob_step (env : Env) (a : Nat) (job : Job) (jobArgs : List String) (st : St)
    (cmd : String) (lmsgs : List String)
    (hmem : a ∈ env.agents)
    (hsum : summaryCore job jobArgs = some (cmd, lmsgs))
    (hid : job.id ≠ "")
    (htok : job.token ≠ nilUUID)
    (hfresh : findInfo st.repo.infos (idOf st.gen) = none) :
    buildJob env a job jobArgs st =
      ({ job with agentID := a },
       stepState st a { job with agentID := a } (jobsString job.jtype) cmd lmsgs,
       none) := by
  have hsum2 : summaryCore { job with agentID := a } jobArgs = some (cmd, lmsgs) := by
    rw [summaryCore_agentID]
    exact hsum
  simp [buildJob, hmem, hsum2, hid, htok, Repo.add, Repo.getInfo, newInfo, hfresh,
    stepState, List.append_assoc]

/-- The first `buildJob` of a builder submission (empty id, nil token): the
fresh info's id and token are copied onto the job before it is queued. -/
theorem buildJob_first (env : Env) (a : Nat) (job : Job) (jobArgs : List String) (st : St)
    (cmd : String) (lmsgs : List String)
    (hmem : a ∈ env.agents)
    (hsum : summaryCore job jobArgs = some (cmd, lmsgs))
    (hid : job.id = "")
    (htok : job.token = nilUUID)
    (hfresh : findInfo st.repo.infos (idOf st.gen) = none) :
    buildJob env a job jobArgs st =
      ({ job with agentID := a, token := tokOf st.gen, id := idOf st.gen },
       stepState st a { job with agentID := a, token := tokOf st.gen, id := idOf st.gen }
         (jobsString job.jtype) cmd lmsgs,
       none) := by
  have hsum2 : summaryCore
      { id := "", agentID := a, token := nilUUID, jtype := job.jtype, payload := job.payload }
      jobArgs = some (cmd, lmsgs) := hsum
  simp [buildJob, hmem, hid, htok, hsum2, Repo.add, Repo.getInfo, newInfo, hfresh,
    stepState, List.append_assoc, tokOf]

/-- Every record the fan-out creates carries a generator-indexed id and
token. -/
theorem fanInfos_mem (tstr cmd : String) (now : Nat) :
    ∀ (l : List Nat) (g : Nat) (i : Info), i ∈ fanInfos tstr cmd now g l →
      ∃ k, i.id = idOf (g + k) ∧ i.token = tokOf (g + k) := by
  intro l
  induction l with
  | nil =>
    intro g i h
    simp [fanInfos] at h
  | cons a rest ih =>
    intro g i h
    simp only [fanInfos, List.mem_cons] at h
    rcases h with h | h
    · exact ⟨0, by simp [h, newInfo]⟩
    · obtain ⟨k, hk1, hk2⟩ := ih (g + 1) i h
      refine ⟨k + 1, ?_, ?_⟩
      · rw [hk1]
        congr 1
        omega
      · rw [hk2]
        congr 1
        omega

/-- The fan-out records have pairwise distinct ids and tokens. -/
theorem fanInfos_pairwise (tstr cmd : String) (now : Nat) :
    ∀ (l : List Nat) (g : Nat),
      (fanInfos tstr cmd now g l).Pairwise (fun i j => i.id ≠ j.id ∧ i.token ≠ j.token) := by
  intro l
  induction l with
  | nil =>
    intro g
    simp [fanInfos]
  | cons a rest ih =>
    intro g
    rw [fanInfos, List.pairwise_cons]
    refine ⟨?_, ih (g + 1)⟩
    intro j hj
    obtain ⟨k, h1, h2⟩ := fanInfos_mem tstr cmd now rest (g + 1) j hj
    constructor
    · simp only [newInfo, h1]
      intro hEq
      have := idOf_inj hEq
      omega
    · simp only [newInfo, h2, tokOf]
      omega

/-- The broadcast loop for agents whose job already carries its id and
token: one fresh info per agent, one queued job per agent differing only in
its agent id. -/
theorem broadcastLoop_spec (env : Env) (jobArgs : List String) (cmd : String)
    (lmsgs : List String) :
    ∀ (as : List Nat) (job : Job) (st : St) (results : String),
    (∀ a ∈ as, a ∈ env.agents) →
    summaryCore job jobArgs = some (cmd, lmsgs) →
    job.id ≠ "" →
    job.token ≠ nilUUID →
    (∀ g, st.gen ≤ g → findInfo st.repo.infos (idOf g) = none) →
    ((broadcastLoop env job jobArgs st results as).2.2.2 = none ∧
     (broadcastLoop env job jobArgs st results as).2.1.repo.infos =
       st.repo.infos ++ fanInfos (jobsString job.jtype) cmd st.now st.gen as ∧
     (broadcastLoop env job jobArgs st results as).2.1.repo.queue =
       st.repo.queue ++ as.map (fun x => { job with agentID := x }) ∧
     (broadcastLoop env job jobArgs st results as).2.1.gen = st.gen + as.length) := by
  intro as
  induction as with
  | nil =>
    intro job st results hmem hsum hid htok hfresh
    simp [broadcastLoop, fanInfos]
  | cons a rest ih =>
    intro job st results hmem hsum hid htok hfresh
    have hstep := buildJob_step env a job jobArgs st cmd lmsgs
      (hmem a (by simp)) hsum hid htok (hfresh st.gen le_rfl)
    have hfresh2 : ∀ g, (stepState st a { job with agentID := a } (jobsString job.jtype) cmd lmsgs).gen ≤ g →
        findInfo (stepState st a { job with agentID := a } (jobsString job.jtype) cmd lmsgs).repo.infos
          (idOf g) = none := by
      intro g hg
      simp only [stepState] at hg ⊢
      rw [findInfo_append_none (hfresh g (by omega))]
      have hne : ¬((newInfo st.gen a (jobsString job.jtype) cmd st.now).id = idOf g) := by
        simp only [newInfo]
        intro hEq
        have := idOf_inj hEq
        omega
      simp [findInfo, hne]
    have ihr := ih { job with agentID := a }
      (stepState st a { job with agentID := a } (jobsString job.jtype) cmd lmsgs)
      (results ++ broadcastLine ({ job with agentID := a }).id a
        (stepState st a { job with agentID := a } (jobsString job.jtype) cmd lmsgs).now)
      (fun x hx => hmem x (by simp [hx]))
      (by rw [summaryCore_agentID]; exact hsum)
      hid htok hfresh2
    simp only [broadcastLoop, hstep]
    refine ⟨ihr.1, ?_, ?_, ?_⟩
    · rw [ihr.2.1]
      simp [stepState, fanInfos, List.append_assoc]
    · rw [ihr.2.2.1]
      simp [stepState, List.append_assoc]
    · rw [ihr.2.2.2]
      simp [stepState]
      omega

/-! ## Claim C2 -/

/-- C2, counterexample.  The claim states that each queued job's id and
token equal those of its own agent's `JobInfo`.  With two known agents the
fan-out creates two infos with distinct fresh ids (`"a"`, `"aa"`) and
tokens (`1`, `2`), but the single `job` value threaded through the loop is
assigned an id and token only on the first iteration, so agent `2`'s queued
job carries agent `1`'s id and token — differing from agent `2`'s own
record. -/
theorem C2_counterexample :
    (addJobChannel demoEnv2 broadcastUUID demoJobBuild [] demoSt).2.2 = none ∧
    (addJobChannel demoEnv2 broadcastUUID demoJobBuild [] demoSt).1.repo.infos.map
        (fun i => (i.id, i.token, i.agentID)) = [("a", 1, 1), ("aa", 2, 2)] ∧
    (addJobChannel demoEnv2 broadcastUUID demoJobBuild [] demoSt).1.repo.queue.map
        (fun j => (j.id, j.token, j.agentID)) = [("a", 1, 1), ("a", 1, 2)] ∧
    ((addJobChannel demoEnv2 broadcastUUID demoJobBuild [] demoSt).1.repo.queue.get? 1).map Job.id
      ≠ ((addJobChannel demoEnv2 broadcastUUID demoJobBuild [] demoSt).1.repo.infos.get? 1).map Info.id := by
  decide

/-- C2 (amended): a broadcast submission with N > 0 known agents and a
buildable command creates exactly N `JobInfo` records, one per agent, with
pairwise distinct fresh ids and tokens, and enqueues exactly one job per
agent; however all N queued jobs carry the id and token of the **first**
agent's record (the shared job value is assigned an id and token only
once), so only the first agent's queued job matches its own record.  With
N = 0 the submission fails with a diagnostic and mutates nothing. -/
theorem C2_theorem :
    (∀ (env : Env) (st : St) (job : Job) (jobArgs : List String) (cmd : String)
       (lmsgs : List String) (a : Nat) (as : List Nat),
      env.agents = a :: as →
      summaryCore job jobArgs = some (cmd, lmsgs) →
      job.id = "" →
      job.token = nilUUID →
      GenFresh st →
      ((addJobChannel env broadcastUUID job jobArgs st).2.2 = none ∧
       (addJobChannel env broadcastUUID job jobArgs st).1.repo.infos =
         st.repo.infos ++ fanInfos (jobsString job.jtype) cmd st.now st.gen (a :: as) ∧
       (addJobChannel env broadcastUUID job jobArgs st).1.repo.queue =
         st.repo.queue ++ (a :: as).map
           (fun x => { job with agentID := x, token := tokOf st.gen, id := idOf st.gen }) ∧
       (fanInfos (jobsString job.jtype) cmd st.now st.gen (a :: as)).Pairwise
         (fun i j => i.id ≠ j.id ∧ i.token ≠ j.token))) ∧
    (∀ (env : Env) (st : St) (job : Job) (jobArgs : List String),
      env.agents = [] →
      addJobChannel env broadcastUUID job jobArgs st = (st, "", some .errNoAgents)) := by
  constructor
  · intro env st job jobArgs cmd lmsgs a as hag hsum hid htok hfresh
    have hlen : ¬(env.agents.length = 0) := by
      rw [hag]
      simp
    have hfirst := buildJob_first env a job jobArgs st cmd lmsgs
      (by rw [hag]; simp) hsum hid htok (hfresh st.gen le_rfl)
    have hfresh2 : ∀ g,
        (stepState st a { job with agentID := a, token := tokOf st.gen, id := idOf st.gen }
          (jobsString job.jtype) cmd lmsgs).gen ≤ g →
        findInfo (stepState st a { job with agentID := a, token := tokOf st.gen, id := idOf st.gen }
          (jobsString job.jtype) cmd lmsgs).repo.infos (idOf g) = none := by
      intro g hg
      simp only [stepState] at hg ⊢
      rw [findInfo_append_none (hfresh g (by omega))]
      have hne : ¬((newInfo st.gen a (jobsString job.jtype) cmd st.now).id = idOf g) := by
        simp only [newInfo]
        intro hEq
        have := idOf_inj hEq
        omega
      simp [findInfo, hne]
    have hloopAll := fun results => broadcastLoop_spec env jobArgs cmd lmsgs as
      { job with agentID := a, token := tokOf st.gen, id := idOf st.gen }
      (stepState st a { job with agentID := a, token := tokOf st.gen, id := idOf st.gen }
        (jobsString job.jtype) cmd lmsgs)
      results
      (fun x hx => by rw [hag]; simp [hx])
      hsum
      (idOf_ne_empty st.gen) (tokOf_ne_nil st.gen) hfresh2
    refine ⟨?_, ?_, ?_, fanInfos_pairwise (jobsString job.jtype) cmd st.now (a :: as) st.gen⟩
    · simp [addJobChannel, hag, broadcastLoop, hfirst]
      exact (hloopAll _).1
    · simp [addJobChannel, hag, broadcastLoop, hfirst]
      rw [(hloopAll _).2.1]
      simp [stepState, fanInfos, List.append_assoc]
    · simp [addJobChannel, hag, broadcastLoop, hfirst]
      rw [(hloopAll _).2.2.1]
      simp [stepState, List.append_assoc]
  · intro env st job jobArgs hag
    simp [addJobChannel, hag]

/-- C2, witness: two known agents, an `ifconfig` submission on the empty
repository — two fresh pairwise distinct infos, two queued jobs both
carrying the first fresh id and token, no error. -/
theorem C2_witness :
    (addJobChannel demoEnv2 broadcastUUID demoJobBuild [] demoSt).2.2 = none ∧
    (addJobChannel demoEnv2 broadcastUUID demoJobBuild [] demoSt).1.repo.infos =
      demoSt.repo.infos ++ fanInfos (jobsString demoJobBuild.jtype) "ifconfig " demoSt.now
        demoSt.gen [1, 2] ∧
    (addJobChannel demoEnv2 broadcastUUID demoJobBuild [] demoSt).1.repo.queue =
      demoSt.repo.queue ++ [1, 2].map
        (fun x => { demoJobBuild with agentID := x, token := tokOf demoSt.gen, id := idOf demoSt.gen }) ∧
    (fanInfos (jobsString demoJobBuild.jtype) "ifconfig " demoSt.now demoSt.gen [1, 2]).Pairwise
      (fun i j => i.id ≠ j.id ∧ i.token ≠ j.token) :=
  C2_theorem.1 demoEnv2 demoSt demoJobBuild [] "ifconfig " [] 1 [2] rfl rfl rfl rfl
    (fun _ _ => rfl)

/-- The hex encoding of a byte list has two characters per byte. -/
theorem hexEncode_length (bs : List Nat) : (hexEncode bs).data.length = 2 * bs.length := by
  induction bs with
  | nil => rfl
  | cons b rest ih =>
    simp [hexEncode] at ih ⊢
    omega

/-- The raw-byte string of a byte list has one character per byte. -/
theorem rawStr_length (bs : List Nat) : (rawStr bs).data.length = bs.length := by
  simp [rawStr]

/-! ## Claim C5 -/

/-- C5, counterexample.  The claim states the Builder appends the
hex-encoded SHA-256 to the argument vector.  The source formats the raw
digest with `%s` (`fmt.Sprintf("%s", fileHash.Sum(nil))`), producing the
32 raw digest bytes as a string, not their 64-character hex spelling.  At
this concrete input (`/tmp/x` containing `"hello"`, the model digest
function returning the 32-byte list `List.range 32`) the value placed in
slot 2 is the raw digest string, which differs from its hex encoding; the
built payload is otherwise as specified (S2's blob `"aGVsbG8="`,
`is_download = true`, size `"5"`). -/
theorem C5_counterexample :
    buildPayload demoEnv "upload" ["/tmp/x", "/c/x"] =
      .ok (.FILETRANSFER,
           .fileTransfer { fileLocation := "/c/x", fileBlob := "aGVsbG8=", isDownload := true },
           ["/tmp/x", "/c/x", rawStr (List.range 32), "5"]) ∧
    rawStr (List.range 32) ≠ hexEncode (List.range 32) :=
  ⟨rfl, by decide⟩

/-- C5 (amended): for every successful build of kind `upload` with
`args = [server_path, remote_path]`, the Builder reads `server_path`, emits
`FILETRANSFER{location = remote_path, blob_b64 = base64(bytes),
is_download = true}` and appends the **raw 32-byte digest string** (not its
hex encoding) followed by the decimal byte length to the argument vector;
for `load-assembly` the appended value is likewise the raw digest string.
Third conjunct: for every 32-byte digest — SHA-256 digests are 32 bytes —
the raw digest string differs from the hex encoding, so the claim's
hex-encoded form never matches what the code appends. -/
theorem C5_theorem :
    (∀ (env : Env) (sp rp : String) (bytes : List Nat),
      env.readFile sp = some bytes →
      buildPayload env "upload" [sp, rp] =
        .ok (.FILETRANSFER,
             .fileTransfer { fileLocation := rp, fileBlob := base64Encode bytes, isDownload := true },
             [sp, rp, rawStr (env.sha256 bytes), toString bytes.length])) ∧
    (∀ (env : Env) (sp : String) (bytes : List Nat),
      env.readFile sp = some bytes →
      buildPayload env "load-assembly" [sp] =
        .ok (.MODULE,
             cmdWith "clr" ["load-assembly", base64Encode bytes, baseGo sp],
             [sp, rawStr (env.sha256 bytes)])) ∧
    (∀ d : List Nat, d.length = 32 → rawStr d ≠ hexEncode d) := by
  refine ⟨?_, ?_, ?_⟩
  · intro env sp rp bytes h
    simp [buildPayload, h]
  · intro env sp bytes h
    simp [buildPayload, h]
  · intro d hd h
    have hlen : (rawStr d).data.length = (hexEncode d).data.length := by rw [h]
    rw [rawStr_length, hexEncode_length, hd] at hlen
    omega

/-- C5, witness: the S2 scenario on the fixture environment, plus the
raw-versus-hex divergence at the 32-byte digest `List.range 32`. -/
theorem C5_witness :
    buildPayload demoEnv "upload" ["/tmp/x", "/c/x"] =
      .ok (.FILETRANSFER,
           .fileTransfer { fileLocation := "/c/x",
                           fileBlob := base64Encode [104, 101, 108, 108, 111],
                           isDownload := true },
           ["/tmp/x", "/c/x", rawStr (demoEnv.sha256 [104, 101, 108, 108, 111]),
            toString (List.length [104, 101, 108, 108, 111])]) ∧
    buildPayload demoEnv "load-assembly" ["/tmp/x"] =
      .ok (.MODULE,
           cmdWith "clr" ["load-assembly", base64Encode [104, 101, 108, 108, 111], baseGo "/tmp/x"],
           ["/tmp/x", rawStr (demoEnv.sha256 [104, 101, 108, 108, 111])]) ∧
    rawStr (List.range 32) ≠ hexEncode (List.range 32) :=
  ⟨C5_theorem.1 demoEnv "/tmp/x" "/c/x" [104, 101, 108, 108, 111] (by decide),
   C5_theorem.2.1 demoEnv "/tmp/x" [104, 101, 108, 108, 111] (by decide),
   C5_theorem.2.2 (List.range 32) (by decide)⟩

/-! ## Claim C8 -/

/-- C8, counterexample.  The claim states that every recognized kind guards
its argument indexing and returns an `ErrArguments`-style error on too-few
arguments.  Many kinds index `jobArgs[0]` (or `jobArgs[0:1]`) unguarded and
crash the process on an empty argument vector — modelled as the `errPanic`
outcome — instead of returning an error: `exit`, `download`, `sleep`, `rm`
and `shellcode` shown here (also `changelistener`, `ja3`, `killdate`,
`maxretry`, `padding`, `pwd`, `run`, `exec`, `skew`). -/
theorem C8_counterexample :
    add demoEnv 7 "exit" [] demoSt = (demoSt, "", some .errPanic) ∧
    add demoEnv 7 "download" [] demoSt = (demoSt, "", some .errPanic) ∧
    add demoEnv 7 "sleep" [] demoSt = (demoSt, "", some .errPanic) ∧
    add demoEnv 7 "rm" [] demoSt = (demoSt, "", some .errPanic) ∧
    add demoEnv 7 "shellcode" [] demoSt = (demoSt, "", some .errPanic) := by
  decide

/-- C8 (amended): only the kinds `upload`, `load-assembly`, `load-clr`,
`invoke-assembly` and `memfd` guard their argument counts with
`ErrArguments`-style error returns (while kinds such as `exit` and
`download` crash on missing arguments); and every Builder failure —
payload-stage errors (`ErrArguments`, `ErrIO`, `ErrUnknownKind`), an
unknown target agent, and a broadcast with zero known agents — returns the
error with the queue and `JobInfo` store unmutated. -/
theorem C8_theorem :
    (∀ (env : Env) (agentID : Nat) (st : St) (x : String),
      add env agentID "upload" [x] st = (st, "", some .errArguments) ∧
      add env agentID "load-assembly" [] st = (st, "", some .errArguments) ∧
      add env agentID "load-clr" [] st = (st, "", some .errArguments) ∧
      add env agentID "invoke-assembly" [] st = (st, "", some .errArguments) ∧
      add env agentID "memfd" [] st = (st, "", some .errArguments) ∧
      add env agentID "exit" [] st = (st, "", some .errPanic) ∧
      add env agentID "download" [] st = (st, "", some .errPanic)) ∧
    (∀ (env : Env) (agentID : Nat) (kind : String) (args : List String) (st : St) (e : Err),
      buildPayload env kind args = .error e →
      add env agentID kind args st = (st, "", some e)) ∧
    (∀ (env : Env) (agentID : Nat) (kind : String) (args : List String) (st : St)
       (out : JobType × Payload × List String),
      buildPayload env kind args = .ok out →
      agentID ≠ broadcastUUID →
      agentID ∉ env.agents →
      add env agentID kind args st = (st, "", some .errUnknownAgent)) ∧
    (∀ (env : Env) (kind : String) (args : List String) (st : St)
       (out : JobType × Payload × List String),
      buildPayload env kind args = .ok out →
      env.agents = [] →
      add env broadcastUUID kind args st = (st, "", some .errNoAgents)) := by
  refine ⟨?_, ?_, ?_, ?_⟩
  · intro env agentID st x
    exact ⟨rfl, rfl, rfl, rfl, rfl, rfl, rfl⟩
  · intro env agentID kind args st e h
    simp [add, h]
  · intro env agentID kind args st out h hneq hmem
    obtain ⟨t, p, args2⟩ := out
    simp [add, h, addJobChannel, hneq, buildJob, hmem]
  · intro env kind args st out h hag
    obtain ⟨t, p, args2⟩ := out
    simp [add, h, addJobChannel, hag]

/-- C8, witness: a one-argument `upload` yields `ErrArguments`; an
unrecognized kind yields `ErrUnknownKind`; an unknown agent yields
`ErrUnknownAgent`; a broadcast with no agents yields the zero-agents
diagnostic — all with the state unchanged. -/
theorem C8_witness :
    add demoEnv 7 "upload" ["/tmp/x"] demoSt = (demoSt, "", some .errArguments) ∧
    add demoEnv 7 "frobnicate" [] demoSt = (demoSt, "", some .errUnknownKind) ∧
    add demoEnv 9 "ifconfig" [] demoSt = (demoSt, "", some .errUnknownAgent) ∧
    add { demoEnv with agents := [] } broadcastUUID "ifconfig" [] demoSt
      = (demoSt, "", some .errNoAgents) :=
  ⟨(C8_theorem.1 demoEnv 7 demoSt "/tmp/x").1,
   C8_theorem.2.1 demoEnv 7 "frobnicate" [] demoSt .errUnknownKind rfl,
   C8_theorem.2.2.1 demoEnv 9 "ifconfig" [] demoSt (.NATIVE, cmdOnly "ifconfig", []) rfl
     (by decide) (by decide),
   C8_theorem.2.2.2 { demoEnv with agents := [] } "ifconfig" [] demoSt
     (.NATIVE, cmdOnly "ifconfig", []) rfl rfl⟩

/-! ## Claim C9 -/

/-- C9, counterexample.  The claim states the SOCKS worker goroutine is
started exactly once, on first construction only.  In the source the
`go memoryService.socksJobs()` statement sits **outside** the
`if memoryService == nil` block, so every call starts another worker: after
two calls from the fresh state two workers have been started (both calls
return the same instance `0`). -/
theorem C9_counterexample :
    (newJobService (newJobService { inst := none, nextId := 0, workers := 0 }).1).1.workers = 2 ∧
    (newJobService (newJobService { inst := none, nextId := 0, workers := 0 }).1).2 = 0 ∧
    (newJobService { inst := none, nextId := 0, workers := 0 }).2 = 0 := by
  decide

/-- C9 (amended): `NewJobService` is a singleton in the instance it
returns — the first call creates the service, every later call returns the
same instance — but every call (not only the first) starts a SOCKS worker
goroutine: the worker count grows by one per call. -/
theorem C9_theorem :
    (∀ s : SvcSt, (newJobService s).1.workers = s.workers + 1) ∧
    (∀ s : SvcSt, (newJobService ((newJobService s).1)).2 = (newJobService s).2) ∧
    (∀ (s : SvcSt) (i : Nat), s.inst = some i →
      newJobService s = ({ s with workers := s.workers + 1 }, i)) ∧
    (∀ s : SvcSt, s.inst = none →
      newJobService s =
        ({ inst := some s.nextId, nextId := s.nextId + 1, workers := s.workers + 1 }, s.nextId)) := by
  refine ⟨?_, ?_, ?_, ?_⟩
  · intro s
    cases h : s.inst <;> simp [newJobService, h]
  · intro s
    cases h : s.inst <;> simp [newJobService, h]
  · intro s i h
    simp [newJobService, h]
  · intro s h
    simp [newJobService, h]

/-- C9, witness: a call on an existing instance returns it and bumps the
worker count; the first call on the fresh state creates instance `0`. -/
theorem C9_witness :
    newJobService { inst := some 3, nextId := 4, workers := 9 }
      = ({ inst := some 3, nextId := 4, workers := 10 }, 3) ∧
    newJobService { inst := none, nextId := 0, workers := 0 }
      = ({ inst := some 0, nextId := 1, workers := 1 }, 0) :=
  ⟨C9_theorem.2.2.1 { inst := some 3, nextId := 4, workers := 9 } 3 rfl,
   C9_theorem.2.2.2 { inst := none, nextId := 0, workers := 0 } rfl⟩

/-! ## Claim C10 -/

/-- C10: `buildJob` discards the return value of the repository's `Add`
(job.go:589, `s.jobRepo.Add(*job, jobInfo)`).  When the insertion fails —
here because the fresh id is already present — the repository is unchanged,
yet `buildJob` still writes the "Created job" agent-log line and returns no
error, and the operator-facing `AddJobChannel` call reports success. -/
theorem C10_theorem (env : Env) (st : St) (agentID : Nat) (job : Job) (jobArgs : List String)
    (cmd : String) (lmsgs : List String)
    (hmem : agentID ∈ env.agents)
    (hneq : agentID ≠ broadcastUUID)
    (hsum : summaryCore job jobArgs = some (cmd, lmsgs))
    (hid : job.id = "")
    (htok : job.token = nilUUID)
    (hdup : (st.repo.getInfo (idOf st.gen)).isSome = true) :
    (buildJob env agentID job jobArgs st).2.2 = none ∧
    (buildJob env agentID job jobArgs st).2.1.repo = st.repo ∧
    (buildJob env agentID job jobArgs st).2.1.logs =
      st.logs ++ lmsgs.map (fun m => (agentID, m))
        ++ [(agentID, createdMsg job.jtype (idOf st.gen) cmd)] ∧
    (addJobChannel env agentID job jobArgs st).2.2 = none := by
  have hsum2 : summaryCore
      { id := "", agentID := agentID, token := nilUUID, jtype := job.jtype, payload := job.payload }
      jobArgs = some (cmd, lmsgs) := hsum
  have hdup2 : (findInfo st.repo.infos (idOf st.gen)).isSome = true := hdup
  have hmain : (buildJob env agentID job jobArgs st).2.2 = none ∧
      (buildJob env agentID job jobArgs st).2.1.repo = st.repo ∧
      (buildJob env agentID job jobArgs st).2.1.logs =
        st.logs ++ lmsgs.map (fun m => (agentID, m))
          ++ [(agentID, createdMsg job.jtype (idOf st.gen) cmd)] := by
    simp [buildJob, hmem, hid, htok, hsum2, Repo.add, Repo.getInfo, hdup2, newInfo,
      List.append_assoc]
  refine ⟨hmain.1, hmain.2.1, hmain.2.2, ?_⟩
  rcases hbj : buildJob env agentID job jobArgs st with ⟨j2, st2, e2⟩
  have h1 := hmain.1
  rw [hbj] at h1
  simp at h1
  subst h1
  simp [addJobChannel, hneq, hbj]

/-- C10, witness: the fixture repository already tracks id `"a"` — the
fresh id at generator `0` — so the insertion fails silently: the
repository is unchanged, the "Created job" line is still logged, and both
`buildJob` and `AddJobChannel` report success. -/
theorem C10_witness :
    (buildJob demoEnv 7 demoJobBuild [] demoStInfo).2.2 = none ∧
    (buildJob demoEnv 7 demoJobBuild [] demoStInfo).2.1.repo = demoStInfo.repo ∧
    (buildJob demoEnv 7 demoJobBuild [] demoStInfo).2.1.logs =
      demoStInfo.logs ++ List.map (fun m => ((7 : Nat), m)) []
        ++ [((7 : Nat), createdMsg demoJobBuild.jtype (idOf demoStInfo.gen) "ifconfig ")] ∧
    (addJobChannel demoEnv 7 demoJobBuild [] demoStInfo).2.2 = none :=
  C10_theorem demoEnv demoStInfo 7 demoJobBuild [] "ifconfig " [] (by decide) (by decide)
    rfl rfl rfl (by decide)

end Merlin
